import Mathlib

/-!
Verification development for the baby-care-tracker add-on.

The Python source is shallowly embedded: timestamps become integer epoch
seconds (the source's naive `datetime` values support exact subtraction,
`.hour`, and `.date()`, which become integer arithmetic here), fractional
hours become rationals, dictionaries become association lists, and fallible
parsers return `Option`.
-/

set_option maxHeartbeats 1000000

/-- Comparison used by every `sorted(..., key=lambda x: x['timestamp'])` call
in the source.  ISO-8601 timestamp strings of a fixed format compare
identically to their chronological order, so the key is the timestamp. -/
def byTimestamp (a b : Int) : Bool := decide (a ≤ b)

/-- Row of the `baby_care_events` log as the analytics code reads it:
only the `event_type` and `timestamp` fields are consulted by the functions
modelled here.  `timestamp` is epoch seconds of the naive datetime. -/
structure BCEvent where
  event_type : String
  timestamp : Int
deriving Repr, DecidableEq

/-- Derived sleep-session record built by
`Analytics._calculate_sleep_sessions` (analytics.py lines 274-280). -/
structure SleepSession where
  start_time : Int
  end_time : Int
  duration_hours : Rat
  start_hour : Int
  is_night_sleep : Bool
deriving Repr, DecidableEq

/-- Hour-of-day of a naive datetime given as epoch seconds
(`datetime.hour`). -/
def hourOf (t : Int) : Int := (t / 3600) % 24

/-- Calendar day of a naive datetime given as epoch seconds
(`datetime.date()`). -/
def dayOf (t : Int) : Int := t / 86400

/-- Embedding of `Analytics._is_night_sleep` (analytics.py lines 286-293):
`(start_hour >= 18 or start_hour <= 2) and (end_hour >= 5 and end_hour <= 10)`. -/
def is_night_sleep (start_time end_time : Int) : Bool :=
  let start_hour := hourOf start_time
  let end_hour := hourOf end_time
  (decide (start_hour ≥ 18) || decide (start_hour ≤ 2)) &&
    (decide (end_hour ≥ 5) && decide (end_hour ≤ 10))

/-- Session dictionary appended by `_calculate_sleep_sessions` when a
`wake_up` closes an open session (analytics.py lines 271-280). -/
def buildSession (start_time wake_time : Int) : SleepSession :=
  { start_time := start_time
    end_time := wake_time
    duration_hours := ((wake_time - start_time : Int) : Rat) / 3600
    start_hour := hourOf start_time
    is_night_sleep := is_night_sleep start_time wake_time }

/-- Loop body of `Analytics._calculate_sleep_sessions` (analytics.py lines
265-283), run over the already-sorted event list.  `openStart` is the
`current_sleep_start` variable (`None` / a start timestamp). -/
def sessionsFrom (openStart : Option Int) : List BCEvent → List SleepSession
  | [] => []
  | e :: rest =>
    if e.event_type = "sleep_start" then
      sessionsFrom (some e.timestamp) rest
    else if e.event_type = "wake_up" then
      match openStart with
      | some s => buildSession s e.timestamp :: sessionsFrom none rest
      | none => sessionsFrom none rest
    else
      sessionsFrom openStart rest

/-- Embedding of `Analytics._calculate_sleep_sessions` (analytics.py lines
258-284): sort the events by timestamp, then run the session loop with no
open session. -/
def calculate_sleep_sessions (sleep_events : List BCEvent) : List SleepSession :=
  sessionsFrom none (sleep_events.mergeSort (fun a b => byTimestamp a.timestamp b.timestamp))

/-- Total sleep hours as summed by `Analytics.get_sleep_analytics`
(analytics.py line 231): the sum of `duration_hours` over the reconstructed
sessions. -/
def total_sleep_hours (sleep_events : List BCEvent) : Rat :=
  ((calculate_sleep_sessions sleep_events).map (fun s => s.duration_hours)).sum

/-- Spec text of the sleep-session state machine, written from the words of
the specification (section 4.5, "Sleep session reconstruction") for
comparison with the implementation: states are `NO_OPEN_SESSION`
(`openStart = none`) and `SESSION_OPEN` (`openStart = some start`); a
`sleep_start` records or replaces the start, a `wake_up` with an open
session emits `SleepSession(start, now)` with
`durationHours = (now - start)/3600` and closes it, a `wake_up` with no
open session is ignored, and an open start at the end emits nothing. -/
def spec_sleep_machine (openStart : Option Int) : List BCEvent → List SleepSession
  | [] => []
  | e :: rest =>
    if e.event_type = "sleep_start" then
      spec_sleep_machine (some e.timestamp) rest
    else if e.event_type = "wake_up" then
      match openStart with
      | some s =>
        { start_time := s
          end_time := e.timestamp
          duration_hours := ((e.timestamp - s : Int) : Rat) / 3600
          start_hour := hourOf s
          is_night_sleep := is_night_sleep s e.timestamp } :: spec_sleep_machine none rest
      | none => spec_sleep_machine none rest
    else
      spec_sleep_machine openStart rest

/-- Loop of `Database.get_sleep_stats` (database.py lines 350-359): the same
two-state traversal over events already ordered by timestamp, collecting
only the session durations in hours. -/
def get_sleep_stats_durations (openStart : Option Int) : List BCEvent → List Rat
  | [] => []
  | e :: rest =>
    if e.event_type = "sleep_start" then
      get_sleep_stats_durations (some e.timestamp) rest
    else if e.event_type = "wake_up" then
      match openStart with
      | some s => (((e.timestamp - s : Int) : Rat) / 3600) :: get_sleep_stats_durations none rest
      | none => get_sleep_stats_durations none rest
    else
      get_sleep_stats_durations openStart rest

/-- Helper for the Python substring test `pat in s`: scan every suffix of
the character list for `pat` as a prefix. -/
def hasInfixAux (pat : List Char) : List Char → Bool
  | [] => pat.isEmpty
  | c :: rest => pat.isPrefixOf (c :: rest) || hasInfixAux pat rest

/-- Python's containment test on strings, `pat in s`. -/
def strContains (s pat : String) : Bool := hasInfixAux pat.toList s.toList

/-- Loop of `Analytics.get_live_stats` (analytics.py lines 437-449) over the
most recent events in reverse chronological order.  Carries the
`last_feeding` and `last_diaper` accumulators and returns them together with
the final `current_sleep_status` string; the status starts as `"awake"` and
the loop breaks at the first sleep event. -/
def live_scan (events : List BCEvent) (last_feeding last_diaper : Option BCEvent) :
    Option BCEvent × Option BCEvent × String :=
  match events with
  | [] => (last_feeding, last_diaper, "awake")
  | e :: rest =>
    if strContains e.event_type "feeding" && last_feeding.isNone then
      live_scan rest (some e) last_diaper
    else if strContains e.event_type "diaper" && last_diaper.isNone then
      live_scan rest last_feeding (some e)
    else if e.event_type = "sleep_start" then
      (last_feeding, last_diaper, "sleeping")
    else if e.event_type = "wake_up" then
      (last_feeding, last_diaper, "awake")
    else
      live_scan rest last_feeding last_diaper

/-- Sleep status reported by `Analytics.get_live_stats`: the third component
of the scan started with empty accumulators. -/
def live_sleep_status (recent_events : List BCEvent) : String :=
  (live_scan recent_events none none).2.2

/-- Embedding of `Analytics._get_current_sleep_status` (analytics.py lines
475-483): `"unknown"` for an empty list, otherwise `"sleeping"` iff the
latest event (first maximum under Python `max`) is a `sleep_start`. -/
def get_current_sleep_status (sleep_events : List BCEvent) : String :=
  match sleep_events with
  | [] => "unknown"
  | e :: rest =>
    let latest := rest.foldl (fun acc x => if acc.timestamp < x.timestamp then x else acc) e
    if latest.event_type = "sleep_start" then "sleeping" else "awake"

/-- Python `round(x, 1)` on the exact rational value: round `x * 10` to the
nearest integer, ties to even, and divide by 10. -/
def pyRound1 (q : Rat) : Rat :=
  let x := q * 10
  let f : Int := ⌊x⌋
  let r : Rat := x - (f : Rat)
  let n : Int :=
    if r < 1/2 then f
    else if 1/2 < r then f + 1
    else if f % 2 = 0 then f else f + 1
  (n : Rat) / 10

/-- Number of distinct calendar days on which a session starts, the
`len(set(... .date() ...))` expression of `_calculate_sleep_efficiency`
(analytics.py line 319). -/
def distinct_start_days (sleep_sessions : List SleepSession) : Nat :=
  ((sleep_sessions.map (fun s => dayOf s.start_time)).dedup).length

/-- Embedding of `Analytics._calculate_sleep_efficiency` (analytics.py lines
312-325): `0` for an empty session list, otherwise
`round(min(total / (days * 15.5) * 100, 100), 1)` where `days` counts the
distinct days with a session start. -/
def calculate_sleep_efficiency (sleep_sessions : List SleepSession) : Rat :=
  if sleep_sessions = [] then 0
  else
    let total := (sleep_sessions.map (fun s => s.duration_hours)).sum
    let days : Rat := (distinct_start_days sleep_sessions : Rat)
    let ideal := days * (15.5 : Rat)
    let efficiency := if 0 < ideal then total / ideal * 100 else 0
    pyRound1 (min efficiency 100)

/-- Connection state of `MQTTClient` relevant to the reconnect discipline:
the `connected` flag and the `reconnect_delay` field (mqtt_client.py lines
23-24, initialised to `False` and `5`). -/
structure MqttState where
  connected : Bool
  reconnect_delay : Nat
deriving Repr, DecidableEq

/-- Initial `MQTTClient` state (mqtt_client.py lines 23-25). -/
def initial_mqtt_state : MqttState := { connected := false, reconnect_delay := 5 }

/-- Delay update `min(self.reconnect_delay * 2, self.max_reconnect_delay)`
with `max_reconnect_delay = 300` (mqtt_client.py lines 25, 82, 110). -/
def next_reconnect_delay (d : Nat) : Nat := min (d * 2) 300

/-- Failure path of `MQTTClient._connect` (mqtt_client.py lines 78-82):
schedule a retry after the current `reconnect_delay` and double the delay
under the cap.  Returns the scheduled delay and the new state. -/
def connect_failure (s : MqttState) : Nat × MqttState :=
  (s.reconnect_delay, { s with reconnect_delay := next_reconnect_delay s.reconnect_delay })

/-- Embedding of `MQTTClient._on_connect` (mqtt_client.py lines 84-99):
result code `0` marks the client connected and resets the delay to `5`;
any other code only clears the connected flag. -/
def on_connect (rc : Nat) (s : MqttState) : MqttState :=
  if rc = 0 then { connected := true, reconnect_delay := 5 }
  else { s with connected := false }

/-- Embedding of `MQTTClient._on_disconnect` (mqtt_client.py lines 101-110):
clear the connected flag; when the disconnect was unexpected (`rc != 0`)
schedule a reconnect after the current delay and double the delay under the
cap.  Returns the scheduled delay (if any) and the new state. -/
def on_disconnect (rc : Nat) (s : MqttState) : Option Nat × MqttState :=
  let s1 : MqttState := { s with connected := false }
  if rc ≠ 0 then
    (some s1.reconnect_delay, { s1 with reconnect_delay := next_reconnect_delay s1.reconnect_delay })
  else (none, s1)

/-- Scheduled retry delays produced by `n` consecutive connect failures
starting from state `s`: each failed `_connect` schedules the current delay
and doubles it. -/
def retry_delays (s : MqttState) : Nat → List Nat
  | 0 => []
  | n + 1 => (connect_failure s).1 :: retry_delays (connect_failure s).2 n

/-- JSON value as the parsers see it after `json.loads` (or the plain-text
fallback `{'value': payload}` of `_parse_device_message`). -/
inductive JsonValue where
  | str (s : String)
  | bool (b : Bool)
  | num (n : Int)
  | null
deriving Repr, DecidableEq

/-- Parsed JSON object: an association list with Python-dict lookup
(`data.get(k)` / `k in data` / `data[k]`). -/
def JsonObj := List (String × JsonValue)

/-- Python dict lookup `data.get(k)` (first binding wins; dict keys are
unique). -/
def jsonGet (data : JsonObj) (k : String) : Option JsonValue :=
  match data with
  | [] => none
  | (k1, v) :: rest => if k1 = k then some v else jsonGet rest k

/-- Rendering of a JSON value inside a Python f-string such as
`f"action_{action}"`. -/
def pyStr (v : JsonValue) : String :=
  match v with
  | .str s => s
  | .bool true => "True"
  | .bool false => "False"
  | .num n => toString n
  | .null => "None"

/-- Python truthiness of a JSON value (`if action:`). -/
def pyTruthy (v : JsonValue) : Bool :=
  match v with
  | .str s => decide (s ≠ "")
  | .bool b => b
  | .num n => decide (n ≠ 0)
  | .null => false

/-- Splitting a character list at a separator character, auxiliary to
`pySplit`.  An empty input yields one empty segment, as in Python. -/
def splitOnCharAux (c : Char) : List Char → List (List Char)
  | [] => [[]]
  | x :: rest =>
    match splitOnCharAux c rest with
    | [] => [[x]]
    | h :: t => if x = c then [] :: h :: t else (x :: h) :: t

/-- Python `s.split(c)` for a one-character separator, as used by
`topic.split('/')` in every parser. -/
def pySplit (s : String) (c : Char) : List String :=
  (splitOnCharAux c s.toList).map (fun l => String.mk l)

/-- Python `s.endswith(suffix)`. -/
def pyEndsWith (s suffix : String) : Bool :=
  suffix.toList.reverse.isPrefixOf s.toList.reverse

/-- Normalized event handed to the event callback by
`MQTTClient._on_message` via the parser results (`device_id`, `event_type`;
the raw `data` mapping is carried through unchanged and omitted here). -/
structure NormalizedEvent where
  device_id : String
  event_type : String
deriving Repr, DecidableEq

/-- Embedding of `MQTTClient._parse_zigbee2mqtt_message` (mqtt_client.py
lines 196-248).  Topics ending in `/action` use the truthiness-guarded
`action` payload field; other topics (except availability and link-quality
sub-topics) pick the first present key in the order
`action`, `state`, `contact`, `occupancy`. -/
def parse_zigbee2mqtt_message (topic : String) (data : JsonObj) : Option NormalizedEvent :=
  let parts := pySplit topic '/'
  if parts.length < 2 then none
  else
    let device_id := (parts.get? 1).getD ""
    if pyEndsWith topic "/action" then
      match jsonGet data "action" with
      | some v =>
        if pyTruthy v then
          some { device_id := "zigbee2mqtt_" ++ device_id, event_type := "action_" ++ pyStr v }
        else none
      | none => none
    else if !(pyEndsWith topic "/availability") && !(pyEndsWith topic "/linkquality") then
      match jsonGet data "action" with
      | some v =>
        some { device_id := "zigbee2mqtt_" ++ device_id, event_type := "action_" ++ pyStr v }
      | none =>
        match jsonGet data "state" with
        | some v =>
          some { device_id := "zigbee2mqtt_" ++ device_id, event_type := "state_" ++ pyStr v }
        | none =>
          match jsonGet data "contact" with
          | some v =>
            some { device_id := "zigbee2mqtt_" ++ device_id, event_type := "contact_" ++ pyStr v }
          | none =>
            match jsonGet data "occupancy" with
            | some v =>
              some { device_id := "zigbee2mqtt_" ++ device_id, event_type := "motion_" ++ pyStr v }
            | none => none
    else none

/-- Embedding of `MQTTClient._parse_homeassistant_message` (mqtt_client.py
lines 250-274).  For a topic `homeassistant/<domain>/<entity_id>/state` with
a recognised domain the body evaluates
`data.get('state', data.get('value', payload))`; the name `payload` is not
bound in this function, the arguments of the outer `get` are evaluated
first, so a `NameError` is raised before any event can be built, the
enclosing `except` handler catches it and the function returns `None` on
every input. -/
def parse_homeassistant_message (topic : String) (data : JsonObj) : Option NormalizedEvent :=
  let parts := pySplit topic '/'
  if parts.length ≥ 4 then
    let domain := (parts.get? 1).getD ""
    if domain = "switch" ∨ domain = "binary_sensor" ∨ domain = "sensor" ∨ domain = "button" then
      none
    else none
  else none

/-- Row of the `device_mappings` table as `Database._mapping_to_dict`
returns it (database.py lines 35-46, 443-454); creation and update times are
omitted as no modelled function reads them. -/
structure DbMapping where
  id : Nat
  device_id : String
  device_name : String
  trigger_type : String
  baby_care_action : String
  enabled : Bool
deriving Repr, DecidableEq

/-- Embedding of `Database.get_device_mapping` (database.py lines 269-283):
first row matching the exact `(device_id, trigger_type)` pair with
`enabled == True`, else `None`. -/
def get_device_mapping (store : List DbMapping) (device_id trigger_type : String) :
    Option DbMapping :=
  store.find? (fun m =>
    decide (m.device_id = device_id) && decide (m.trigger_type = trigger_type) && m.enabled)

/-- Entry of the file-based mapping store `/data/device_mappings.json` as
`DeviceManager._store_mapping` writes it and `_load_mappings` reads it
(device_manager.py lines 330-367): a JSON object with `id`, `device_id`,
`device_name`, `trigger_type`, `baby_care_action` and `created_at` keys.
`enabled` models an optional `enabled` key in the stored JSON (the store
file is plain JSON; `_store_mapping` itself never writes that key, hence
the default `none`). -/
structure FileMapping where
  id : Nat
  device_id : String
  device_name : String
  trigger_type : String
  baby_care_action : String
  created_at : String
  enabled : Option Bool := none
deriving Repr, DecidableEq

/-- Embedding of `DeviceManager.get_mapping` (device_manager.py lines
286-300), the lookup used by `main.on_device_event` on the
message-processing hot path: the first stored mapping whose `device_id` and
`trigger_type` equal the queried pair; no other field is consulted. -/
def dm_get_mapping (mappings : List FileMapping) (device_id trigger_type : String) :
    Option FileMapping :=
  mappings.find? (fun m =>
    decide (m.device_id = device_id) && decide (m.trigger_type = trigger_type))

/-- Embedding of `DeviceManager._store_mapping` (device_manager.py lines
346-367): the new id is `max([m.get('id', 0) for m in mappings], default=0) + 1`;
the new entry is appended and the pair (assigned id, new store) returned.
`created_at` (a `datetime.now()` string) is passed in as `now`. -/
def store_mapping (mappings : List FileMapping)
    (device_id device_name trigger_type baby_care_action now : String) :
    Nat × List FileMapping :=
  let mapping_id := (mappings.map (fun m => m.id)).foldl max 0 + 1
  (mapping_id,
    mappings ++ [{ id := mapping_id, device_id := device_id, device_name := device_name,
                   trigger_type := trigger_type, baby_care_action := baby_care_action,
                   created_at := now }])

/-- Embedding of `DeviceManager._delete_mapping` (device_manager.py lines
369-390): drop every entry whose id equals `mapping_id`; report whether the
store shrank. -/
def delete_mapping (mappings : List FileMapping) (mapping_id : Nat) :
    Bool × List FileMapping :=
  let remaining := mappings.filter (fun m => decide (m.id ≠ mapping_id))
  (decide (remaining.length < mappings.length), remaining)

/-! ## Lemmas about the sleep-session loop -/

/-- Chronological sortedness transfers to the boolean comparison used by the
sort. -/
theorem pairwise_byTimestamp {l : List BCEvent}
    (h : l.Pairwise (fun a b => a.timestamp ≤ b.timestamp)) :
    l.Pairwise (fun a b => byTimestamp a.timestamp b.timestamp = true) :=
  h.imp (fun hab => by simpa [byTimestamp] using hab)

/-- The session loop of the implementation coincides with the spec's
two-state machine on every event list and in every machine state. -/
theorem sessionsFrom_eq_spec (l : List BCEvent) :
    ∀ o, sessionsFrom o l = spec_sleep_machine o l := by
  induction l with
  | nil => intro o; rfl
  | cons e rest ih =>
    intro o
    by_cases h1 : e.event_type = "sleep_start"
    · simp [sessionsFrom, spec_sleep_machine, h1, ih]
    · by_cases h2 : e.event_type = "wake_up"
      · cases o <;> simp [sessionsFrom, spec_sleep_machine, h1, h2, ih, buildSession]
      · simp [sessionsFrom, spec_sleep_machine, h1, h2, ih]

/-- Every session emitted by the loop has
`duration_hours = (end_time - start_time) / 3600`. -/
theorem sessionsFrom_duration (l : List BCEvent) :
    ∀ o, ∀ sess ∈ sessionsFrom o l,
      sess.duration_hours = ((sess.end_time - sess.start_time : Int) : Rat) / 3600 := by
  induction l with
  | nil => intro o sess h; simp [sessionsFrom] at h
  | cons e rest ih =>
    intro o sess h
    by_cases h1 : e.event_type = "sleep_start"
    · simp only [sessionsFrom, if_pos h1] at h
      exact ih _ sess h
    · by_cases h2 : e.event_type = "wake_up"
      · cases o with
        | some s =>
          simp only [sessionsFrom, if_neg h1, if_pos h2] at h
          rcases List.mem_cons.mp h with h3 | h3
          · subst h3; rfl
          · exact ih _ sess h3
        | none =>
          simp only [sessionsFrom, if_neg h1, if_pos h2] at h
          exact ih _ sess h
      · simp only [sessionsFrom, if_neg h1, if_neg h2] at h
        exact ih _ sess h

/-- Summing durations that are each `(end - start) / 3600` gives the summed
raw differences divided by 3600. -/
theorem map_duration_sum (S : List SleepSession)
    (h : ∀ sess ∈ S, sess.duration_hours
      = ((sess.end_time - sess.start_time : Int) : Rat) / 3600) :
    (S.map (fun s => s.duration_hours)).sum
      = ((S.map (fun s => ((s.end_time - s.start_time : Int) : Rat))).sum) / 3600 := by
  induction S with
  | nil => simp
  | cons a t ih =>
    simp only [List.map_cons, List.sum_cons]
    rw [h a (List.mem_cons_self a t), ih (fun s hs => h s (List.mem_cons_of_mem a hs))]
    ring

/-- The duration-collecting loop of `Database.get_sleep_stats` produces
exactly the durations of the sessions built by the analytics loop. -/
theorem get_sleep_stats_durations_eq (l : List BCEvent) :
    ∀ o, get_sleep_stats_durations o l
      = (sessionsFrom o l).map (fun s => s.duration_hours) := by
  induction l with
  | nil => intro o; rfl
  | cons e rest ih =>
    intro o
    by_cases h1 : e.event_type = "sleep_start"
    · simp [get_sleep_stats_durations, sessionsFrom, h1, ih]
    · by_cases h2 : e.event_type = "wake_up"
      · cases o <;> simp [get_sleep_stats_durations, sessionsFrom, h1, h2, ih, buildSession]
      · simp [get_sleep_stats_durations, sessionsFrom, h1, h2, ih]

/-- C1: for every list of sleep events ordered by `occurredAt` ascending,
the sleep-session reconstruction of `Analytics._calculate_sleep_sessions`
behaves as the spec's two-state machine (a `sleep_start` records or replaces
the open start, a `wake_up` with an open session emits exactly one session
with that start, that wake time and `durationHours = (wake - start)/3600`,
an unmatched `wake_up` or trailing open `sleep_start` emits nothing); the
total reconstructed sleep hours equal the sum of `(wake - start)` over the
closed sessions divided by 3600; and the session loop of
`Database.get_sleep_stats` yields exactly the durations of those sessions. -/
theorem sleep_reconstruction_two_state_machine (events : List BCEvent)
    (hsorted : events.Pairwise (fun a b => a.timestamp ≤ b.timestamp)) :
    calculate_sleep_sessions events = spec_sleep_machine none events ∧
    total_sleep_hours events
      = ((calculate_sleep_sessions events).map
          (fun s => ((s.end_time - s.start_time : Int) : Rat))).sum / 3600 ∧
    get_sleep_stats_durations none events
      = (calculate_sleep_sessions events).map (fun s => s.duration_hours) := by
  have hms : events.mergeSort (fun a b => byTimestamp a.timestamp b.timestamp) = events :=
    List.mergeSort_of_sorted (pairwise_byTimestamp hsorted)
  unfold total_sleep_hours calculate_sleep_sessions
  rw [hms]
  exact ⟨sessionsFrom_eq_spec _ _,
    map_duration_sum _ (sessionsFrom_duration _ _),
    (get_sleep_stats_durations_eq _ _).trans rfl⟩

/-- Witness for C1 on the concrete ordered list
`[sleep_start@100, wake_up@200]`. -/
theorem sleep_reconstruction_two_state_machine_witness :
    calculate_sleep_sessions [⟨"sleep_start", 100⟩, ⟨"wake_up", 200⟩]
      = spec_sleep_machine none [⟨"sleep_start", 100⟩, ⟨"wake_up", 200⟩] ∧
    total_sleep_hours [⟨"sleep_start", 100⟩, ⟨"wake_up", 200⟩]
      = ((calculate_sleep_sessions [⟨"sleep_start", 100⟩, ⟨"wake_up", 200⟩]).map
          (fun s => ((s.end_time - s.start_time : Int) : Rat))).sum / 3600 ∧
    get_sleep_stats_durations none [⟨"sleep_start", 100⟩, ⟨"wake_up", 200⟩]
      = (calculate_sleep_sessions [⟨"sleep_start", 100⟩, ⟨"wake_up", 200⟩]).map
          (fun s => s.duration_hours) :=
  sleep_reconstruction_two_state_machine _ (by decide)

/-! ## Backoff discipline -/

/-- Capping before doubling is the same as capping after, for the `min ... 300`
backoff cap. -/
theorem min_cap_mul (a b : Nat) (hb : 1 ≤ b) :
    min (min a 300 * b) 300 = min (a * b) 300 := by
  rcases Nat.le_total a 300 with h | h
  · rw [Nat.min_eq_left h]
  · rw [Nat.min_eq_right h]
    have h1 : 300 ≤ 300 * b := Nat.le_mul_of_pos_right 300 hb
    have h2 : 300 ≤ a * b := le_trans h (Nat.le_mul_of_pos_right a hb)
    rw [Nat.min_eq_right h1, Nat.min_eq_right h2]

/-- Closed form of the scheduled retry delays under consecutive connect
failures: starting from delay `d ≤ 300`, the `i`-th scheduled delay is
`min (d * 2^i) 300`. -/
theorem retry_delays_formula :
    ∀ (n : Nat) (c : Bool) (d : Nat), d ≤ 300 →
      retry_delays ⟨c, d⟩ n = (List.range n).map (fun i => min (d * 2 ^ i) 300) := by
  intro n
  induction n with
  | zero => intro c d _; rfl
  | succ k ih =>
    intro c d hd
    have hstep : retry_delays ⟨c, d⟩ (k + 1)
        = d :: retry_delays ⟨c, min (d * 2) 300⟩ k := rfl
    rw [hstep, List.range_succ_eq_map, List.map_cons, List.map_map,
      ih c (min (d * 2) 300) (Nat.min_le_right _ _)]
    congr 1
    · simp [Nat.min_eq_left hd]
    · apply List.map_congr_left
      intro i _
      calc min (min (d * 2) 300 * 2 ^ i) 300
          = min (d * 2 * 2 ^ i) 300 := min_cap_mul _ _ (Nat.one_le_two_pow)
        _ = min (d * 2 ^ (i + 1)) 300 := by rw [pow_succ]; ring_nf

/-- C3: starting from the initial 5-second delay, `n` consecutive connect
failures schedule the delays `min (5 * 2^i) 300` for `i < n` — concretely
`5, 10, 20, 40, 80, 160, 300, 300, ...`; a successful connect (`rc = 0`)
resets the delay to 5; and an unexpected disconnect (`rc ≠ 0`) schedules a
reconnect after the current delay and doubles it under the 300-second cap. -/
theorem mqtt_backoff (n : Nat) :
    retry_delays initial_mqtt_state n
      = (List.range n).map (fun i => min (5 * 2 ^ i) 300) ∧
    retry_delays initial_mqtt_state 8 = [5, 10, 20, 40, 80, 160, 300, 300] ∧
    (∀ s, on_connect 0 s = { connected := true, reconnect_delay := 5 }) ∧
    (∀ rc s, rc ≠ 0 → on_disconnect rc s =
      (some s.reconnect_delay,
        { connected := false,
          reconnect_delay := next_reconnect_delay s.reconnect_delay })) := by
  refine ⟨retry_delays_formula n false 5 (by decide), ?_, ?_, ?_⟩
  · rw [show initial_mqtt_state = ⟨false, 5⟩ from rfl,
      retry_delays_formula 8 false 5 (by decide)]
    decide
  · intro s; rfl
  · intro rc s hrc
    simp [on_disconnect, if_pos hrc]

/-- Witness for C3 at `rc = 1` from the initial state. -/
theorem mqtt_backoff_witness :
    (1 : Nat) ≠ 0 ∧ on_disconnect 1 initial_mqtt_state =
      (some initial_mqtt_state.reconnect_delay,
        { connected := false,
          reconnect_delay := next_reconnect_delay initial_mqtt_state.reconnect_delay }) :=
  ⟨by decide, (mqtt_backoff 0).2.2.2 1 initial_mqtt_state (by decide)⟩

/-! ## Session start/end ordering -/

/-- Sorting by timestamp yields a chronologically ordered list. -/
theorem mergeSort_byTimestamp_sorted (l : List BCEvent) :
    (l.mergeSort (fun a b => byTimestamp a.timestamp b.timestamp)).Pairwise
      (fun a b => a.timestamp ≤ b.timestamp) := by
  have h := @List.sorted_mergeSort BCEvent (fun a b => byTimestamp a.timestamp b.timestamp)
    (fun a b c hab hbc => by simp [byTimestamp] at *; omega)
    (fun a b => by simp [byTimestamp]; omega) l
  exact h.imp (fun hab => by simpa [byTimestamp] using hab)

/-- Invariant of the session loop on a chronologically ordered list: when
the open start (if any) is at or before every remaining event, every emitted
session starts at or before its end. -/
theorem sessionsFrom_start_le_end :
    ∀ (l : List BCEvent), l.Pairwise (fun a b => a.timestamp ≤ b.timestamp) →
      ∀ (o : Option Int), (∀ s, o = some s → ∀ e ∈ l, s ≤ e.timestamp) →
      ∀ sess ∈ sessionsFrom o l, sess.start_time ≤ sess.end_time := by
  intro l
  induction l with
  | nil => intro _ o _ sess h; simp [sessionsFrom] at h
  | cons e rest ih =>
    intro hp o ho sess h
    rw [List.pairwise_cons] at hp
    by_cases h1 : e.event_type = "sleep_start"
    · simp only [sessionsFrom, if_pos h1] at h
      refine ih hp.2 _ ?_ sess h
      intro s hs x hx
      injection hs with hs2
      subst hs2
      exact hp.1 x hx
    · by_cases h2 : e.event_type = "wake_up"
      · cases o with
        | some s =>
          simp only [sessionsFrom, if_neg h1, if_pos h2] at h
          rcases List.mem_cons.mp h with h3 | h3
          · subst h3
            exact ho s rfl e (List.mem_cons_self e rest)
          · exact ih hp.2 none (by intro s1 hs1; cases hs1) sess h3
        | none =>
          simp only [sessionsFrom, if_neg h1, if_pos h2] at h
          exact ih hp.2 none (by intro s1 hs1; cases hs1) sess h
      · simp only [sessionsFrom, if_neg h1, if_neg h2] at h
        refine ih hp.2 o ?_ sess h
        intro s hs x hx
        exact ho s hs x (List.mem_cons_of_mem e hx)

/-- C6 counterexample: on the input where a `wake_up` carries the same
`occurredAt` timestamp as the open `sleep_start`, the reconstruction emits a
session whose `end_time` is not strictly greater than its `start_time`. -/
theorem sleep_session_zero_length_cex :
    buildSession 0 0 ∈ calculate_sleep_sessions [⟨"sleep_start", 0⟩, ⟨"wake_up", 0⟩] ∧
    ¬ (buildSession 0 0).start_time < (buildSession 0 0).end_time := by
  constructor
  · unfold calculate_sleep_sessions
    rw [@List.mergeSort_of_sorted BCEvent (fun a b => byTimestamp a.timestamp b.timestamp) _
      (by decide)]
    exact List.mem_cons_self _ _
  · decide

/-- C6 (amended): every SleepSession produced by the reconstruction
satisfies `end_time ≥ start_time` (equality occurs exactly when the
`wake_up` shares its timestamp with the open `sleep_start`), for every input
list of sleep events. -/
theorem sleep_session_end_ge_start (events : List BCEvent) (sess : SleepSession)
    (h : sess ∈ calculate_sleep_sessions events) :
    sess.start_time ≤ sess.end_time := by
  unfold calculate_sleep_sessions at h
  exact sessionsFrom_start_le_end _ (mergeSort_byTimestamp_sorted events) none
    (by intro s hs; cases hs) sess h

/-- Witness for the amended C6 theorem on a concrete input. -/
theorem sleep_session_end_ge_start_witness :
    buildSession 100 200 ∈ calculate_sleep_sessions [⟨"sleep_start", 100⟩, ⟨"wake_up", 200⟩] ∧
    (buildSession 100 200).start_time ≤ (buildSession 100 200).end_time := by
  have hmem : buildSession 100 200
      ∈ calculate_sleep_sessions [⟨"sleep_start", 100⟩, ⟨"wake_up", 200⟩] := by
    unfold calculate_sleep_sessions
    rw [@List.mergeSort_of_sorted BCEvent (fun a b => byTimestamp a.timestamp b.timestamp) _
      (by decide)]
    exact List.mem_cons_self _ _
  exact ⟨hmem, sleep_session_end_ge_start _ _ hmem⟩

/-! ## Night-sleep classification -/

/-- C7: a reconstructed session is classified night sleep exactly when its
start hour lies in `{18..23} ∪ {0,1,2}` and its end hour lies in `{5..10}`;
and on the concrete scenario `sleep_start` at 2024-01-01T20:00:00 (epoch
1704139200) with `wake_up` at 2024-01-02T06:00:00 (epoch 1704175200) the
reconstruction yields exactly one session with `duration_hours = 10` and
`is_night_sleep = true`. -/
theorem night_sleep_classification :
    (∀ s e : Int, is_night_sleep s e = true ↔
      (((18 ≤ hourOf s ∧ hourOf s ≤ 23) ∨ (0 ≤ hourOf s ∧ hourOf s ≤ 2)) ∧
        (5 ≤ hourOf e ∧ hourOf e ≤ 10))) ∧
    calculate_sleep_sessions [⟨"sleep_start", 1704139200⟩, ⟨"wake_up", 1704175200⟩]
      = [buildSession 1704139200 1704175200] ∧
    (buildSession 1704139200 1704175200).duration_hours = 10 ∧
    (buildSession 1704139200 1704175200).is_night_sleep = true := by
  refine ⟨?_, ?_, ?_, ?_⟩
  · intro s e
    have h1 : 0 ≤ hourOf s := Int.emod_nonneg _ (by norm_num)
    have h2 : hourOf s < 24 := Int.emod_lt_of_pos _ (by norm_num)
    have h3 : 0 ≤ hourOf e := Int.emod_nonneg _ (by norm_num)
    have h4 : hourOf e < 24 := Int.emod_lt_of_pos _ (by norm_num)
    simp only [is_night_sleep, Bool.and_eq_true, Bool.or_eq_true, decide_eq_true_eq,
      ge_iff_le]
    omega
  · unfold calculate_sleep_sessions
    rw [@List.mergeSort_of_sorted BCEvent (fun a b => byTimestamp a.timestamp b.timestamp) _
      (by decide)]
    rfl
  · show ((1704175200 - 1704139200 : Int) : Rat) / 3600 = 10
    norm_num
  · decide

/-! ## Live sleep status -/

/-- The final status of the live scan does not depend on the
`last_feeding` / `last_diaper` accumulators. -/
theorem live_scan_status_acc (l : List BCEvent) :
    ∀ lf1 ld1 lf2 ld2,
      (live_scan l lf1 ld1).2.2 = (live_scan l lf2 ld2).2.2 := by
  induction l with
  | nil => intro _ _ _ _; rfl
  | cons e rest ih =>
    intro lf1 ld1 lf2 ld2
    by_cases hs : e.event_type = "sleep_start"
    · have hf : strContains "sleep_start" "feeding" = false := by decide
      have hd : strContains "sleep_start" "diaper" = false := by decide
      simp [live_scan, hs, hf, hd]
    · by_cases hw : e.event_type = "wake_up"
      · have hf : strContains "wake_up" "feeding" = false := by decide
        have hd : strContains "wake_up" "diaper" = false := by decide
        simp [live_scan, hw, hs, hf, hd]
      · have key : ∀ lf ld,
            (live_scan (e :: rest) lf ld).2.2 = (live_scan rest none none).2.2 := by
          intro lf ld
          simp only [live_scan]
          by_cases h1 : strContains e.event_type "feeding" && lf.isNone
          · rw [if_pos h1]; exact ih _ _ none none
          · rw [if_neg h1]
            by_cases h2 : strContains e.event_type "diaper" && ld.isNone
            · rw [if_pos h2]; exact ih _ _ none none
            · rw [if_neg h2, if_neg hs, if_neg hw]
              exact ih _ _ none none
        rw [key, key]

/-- Events that are neither `sleep_start` nor `wake_up` are skipped by the
live scan without affecting the final status. -/
theorem live_scan_status_append (pre : List BCEvent) :
    (∀ x ∈ pre, x.event_type ≠ "sleep_start" ∧ x.event_type ≠ "wake_up") →
    ∀ (tail : List BCEvent) (lf ld : Option BCEvent),
      (live_scan (pre ++ tail) lf ld).2.2 = (live_scan tail none none).2.2 := by
  induction pre with
  | nil => intro _ tail lf ld; exact live_scan_status_acc tail lf ld none none
  | cons p pre ih =>
    intro hpre tail lf ld
    have hp := hpre p (List.mem_cons_self p pre)
    have hrest : ∀ x ∈ pre, x.event_type ≠ "sleep_start" ∧ x.event_type ≠ "wake_up" :=
      fun x hx => hpre x (List.mem_cons_of_mem p hx)
    rw [List.cons_append]
    simp only [live_scan]
    by_cases h1 : strContains p.event_type "feeding" && lf.isNone
    · rw [if_pos h1]; exact ih hrest tail _ _
    · rw [if_neg h1]
      by_cases h2 : strContains p.event_type "diaper" && ld.isNone
      · rw [if_pos h2]; exact ih hrest tail _ _
      · rw [if_neg h2, if_neg hp.1, if_neg hp.2]
        exact ih hrest tail _ _

/-- C4 counterexample: a scanned window containing neither `sleep_start` nor
`wake_up` is reported as `"awake"` by `get_live_stats`, not `"unknown"`. -/
theorem live_status_no_sleep_event_cex :
    live_sleep_status [⟨"feeding_start_left", 0⟩] = "awake" ∧
    live_sleep_status [⟨"feeding_start_left", 0⟩] ≠ "unknown" := by
  constructor
  · decide
  · decide

/-- C4 (amended): scanning the most recent events in reverse chronological
order, the first sleep event being a `sleep_start` yields status
`"sleeping"`, a `wake_up` yields `"awake"`, and a window containing neither
yields `"awake"` (the default of `get_live_stats`; only the daily-stats
helper `_get_current_sleep_status` reports `"unknown"`, on an empty
sleep-event list). -/
theorem live_status_first_sleep_event (pre : List BCEvent) (e : BCEvent)
    (post : List BCEvent)
    (hpre : ∀ x ∈ pre, x.event_type ≠ "sleep_start" ∧ x.event_type ≠ "wake_up") :
    (e.event_type = "sleep_start" → live_sleep_status (pre ++ e :: post) = "sleeping") ∧
    (e.event_type = "wake_up" → live_sleep_status (pre ++ e :: post) = "awake") ∧
    (∀ events : List BCEvent,
      (∀ x ∈ events, x.event_type ≠ "sleep_start" ∧ x.event_type ≠ "wake_up") →
      live_sleep_status events = "awake") ∧
    get_current_sleep_status [] = "unknown" := by
  refine ⟨?_, ?_, ?_, rfl⟩
  · intro hs
    have hf : strContains "sleep_start" "feeding" = false := by decide
    have hd : strContains "sleep_start" "diaper" = false := by decide
    unfold live_sleep_status
    rw [live_scan_status_append pre hpre (e :: post) none none]
    simp [live_scan, hs, hf, hd]
  · intro hw
    have hs : e.event_type ≠ "sleep_start" := by rw [hw]; decide
    have hf : strContains "wake_up" "feeding" = false := by decide
    have hd : strContains "wake_up" "diaper" = false := by decide
    unfold live_sleep_status
    rw [live_scan_status_append pre hpre (e :: post) none none]
    simp [live_scan, hw, hs, hf, hd]
  · intro events hev
    unfold live_sleep_status
    have h := live_scan_status_append events hev [] none none
    rw [List.append_nil] at h
    rw [h]
    rfl

/-- Witness for the amended C4 theorem on a concrete window. -/
theorem live_status_first_sleep_event_witness :
    ((⟨"sleep_start", 50⟩ : BCEvent).event_type = "sleep_start" →
      live_sleep_status ([⟨"feeding_start_left", 100⟩] ++ ⟨"sleep_start", 50⟩ :: [⟨"wake_up", 10⟩])
        = "sleeping") ∧
    ((⟨"sleep_start", 50⟩ : BCEvent).event_type = "wake_up" →
      live_sleep_status ([⟨"feeding_start_left", 100⟩] ++ ⟨"sleep_start", 50⟩ :: [⟨"wake_up", 10⟩])
        = "awake") ∧
    (∀ events : List BCEvent,
      (∀ x ∈ events, x.event_type ≠ "sleep_start" ∧ x.event_type ≠ "wake_up") →
      live_sleep_status events = "awake") ∧
    get_current_sleep_status [] = "unknown" :=
  live_status_first_sleep_event [⟨"feeding_start_left", 100⟩] ⟨"sleep_start", 50⟩
    [⟨"wake_up", 10⟩] (by decide)

/-! ## Message normalisation -/

/-- C2 (code bug): a Home Assistant state message with a recognised domain
and a `state` payload field is dropped by `_parse_homeassistant_message`
instead of yielding `NormalizedEvent{deviceId: "ha_nursery_light",
eventType: "state_on"}`: the function body references the unbound name
`payload`, raising `NameError` before any event is built, and the enclosing
handler turns that into `None`. -/
theorem homeassistant_state_message_dropped :
    parse_homeassistant_message "homeassistant/switch/nursery_light/state"
      [("state", JsonValue.str "on")] = none ∧
    (none : Option NormalizedEvent)
      ≠ some { device_id := "ha_nursery_light", event_type := "state_on" } := by
  exact ⟨rfl, by simp⟩

/-- C9: the zigbee parser resolves the scenario topic
`zigbee2mqtt/front_door_button/action` with payload `{"action": "single"}`
to `NormalizedEvent{deviceId: "zigbee2mqtt_front_door_button", eventType:
"action_single"}`, and on a state-change topic it picks the event type by
the fixed payload priority `action` > `state` > `contact` > `occupancy`,
the first present key winning (none present: the message is dropped). -/
theorem zigbee_field_priority :
    parse_zigbee2mqtt_message "zigbee2mqtt/front_door_button/action"
      [("action", JsonValue.str "single")]
      = some { device_id := "zigbee2mqtt_front_door_button",
               event_type := "action_single" } ∧
    (∀ (data : JsonObj) (v : JsonValue),
      jsonGet data "action" = some v →
      parse_zigbee2mqtt_message "zigbee2mqtt/nursery_sensor" data
        = some { device_id := "zigbee2mqtt_nursery_sensor",
                 event_type := "action_" ++ pyStr v }) ∧
    (∀ (data : JsonObj) (v : JsonValue),
      jsonGet data "action" = none → jsonGet data "state" = some v →
      parse_zigbee2mqtt_message "zigbee2mqtt/nursery_sensor" data
        = some { device_id := "zigbee2mqtt_nursery_sensor",
                 event_type := "state_" ++ pyStr v }) ∧
    (∀ (data : JsonObj) (v : JsonValue),
      jsonGet data "action" = none → jsonGet data "state" = none →
      jsonGet data "contact" = some v →
      parse_zigbee2mqtt_message "zigbee2mqtt/nursery_sensor" data
        = some { device_id := "zigbee2mqtt_nursery_sensor",
                 event_type := "contact_" ++ pyStr v }) ∧
    (∀ (data : JsonObj) (v : JsonValue),
      jsonGet data "action" = none → jsonGet data "state" = none →
      jsonGet data "contact" = none → jsonGet data "occupancy" = some v →
      parse_zigbee2mqtt_message "zigbee2mqtt/nursery_sensor" data
        = some { device_id := "zigbee2mqtt_nursery_sensor",
                 event_type := "motion_" ++ pyStr v }) ∧
    (∀ (data : JsonObj),
      jsonGet data "action" = none → jsonGet data "state" = none →
      jsonGet data "contact" = none → jsonGet data "occupancy" = none →
      parse_zigbee2mqtt_message "zigbee2mqtt/nursery_sensor" data = none) := by
  have hsplit : pySplit "zigbee2mqtt/nursery_sensor" '/'
      = ["zigbee2mqtt", "nursery_sensor"] := by decide
  have he1 : pyEndsWith "zigbee2mqtt/nursery_sensor" "/action" = false := by decide
  have he2 : pyEndsWith "zigbee2mqtt/nursery_sensor" "/availability" = false := by decide
  have he3 : pyEndsWith "zigbee2mqtt/nursery_sensor" "/linkquality" = false := by decide
  refine ⟨rfl, ?_, ?_, ?_, ?_, ?_⟩
  · intro data v ha
    simp [parse_zigbee2mqtt_message, hsplit, he1, he2, he3, ha]
  · intro data v ha hs
    simp [parse_zigbee2mqtt_message, hsplit, he1, he2, he3, ha, hs]
  · intro data v ha hs hc
    simp [parse_zigbee2mqtt_message, hsplit, he1, he2, he3, ha, hs, hc]
  · intro data v ha hs hc ho
    simp [parse_zigbee2mqtt_message, hsplit, he1, he2, he3, ha, hs, hc, ho]
  · intro data ha hs hc ho
    simp [parse_zigbee2mqtt_message, hsplit, he1, he2, he3, ha, hs, hc, ho]

/-- Witness for C9's priority clause: an `action` key wins on a state-change
topic. -/
theorem zigbee_field_priority_witness :
    jsonGet [("action", JsonValue.str "double")] "action"
      = some (JsonValue.str "double") ∧
    parse_zigbee2mqtt_message "zigbee2mqtt/nursery_sensor"
      [("action", JsonValue.str "double")]
      = some { device_id := "zigbee2mqtt_nursery_sensor",
               event_type := "action_" ++ pyStr (JsonValue.str "double") } :=
  ⟨rfl, zigbee_field_priority.2.1 [("action", JsonValue.str "double")]
    (JsonValue.str "double") rfl⟩

/-! ## Mapping resolution -/

/-- Disabled file-store mapping used by the C5 counterexample. -/
def disabledMapping : FileMapping :=
  { id := 1, device_id := "zigbee2mqtt_btn", device_name := "Button",
    trigger_type := "action_single", baby_care_action := "sleep_start",
    created_at := "2024-01-01T00:00:00", enabled := some false }

/-- C5 counterexample: the lookup used on the message-processing hot path
(`DeviceManager.get_mapping`, called from `main.on_device_event`) returns a
stored mapping whose `enabled` field is `false`, because it matches only on
`(device_id, trigger_type)`. -/
theorem hot_path_returns_disabled_mapping_cex :
    dm_get_mapping [disabledMapping] "zigbee2mqtt_btn" "action_single"
      = some disabledMapping ∧
    disabledMapping.enabled = some false := ⟨rfl, rfl⟩

/-- C5 (amended): both lookups return `none` when no mapping exists for the
exact `(deviceId, triggerType)` pair, and a returned mapping always belongs
to the store and matches the pair; `Database.get_device_mapping`
additionally never returns a disabled mapping, while the file-based
`DeviceManager.get_mapping` used on the message-processing hot path matches
only the pair and therefore ignores the `enabled` field. -/
theorem mapping_resolution (dbStore : List DbMapping) (fileStore : List FileMapping)
    (d t : String) :
    ((∀ m ∈ dbStore, ¬(m.device_id = d ∧ m.trigger_type = t)) →
      get_device_mapping dbStore d t = none) ∧
    (∀ m, get_device_mapping dbStore d t = some m →
      m ∈ dbStore ∧ m.device_id = d ∧ m.trigger_type = t ∧ m.enabled = true) ∧
    ((∀ m ∈ fileStore, ¬(m.device_id = d ∧ m.trigger_type = t)) →
      dm_get_mapping fileStore d t = none) ∧
    (∀ m, dm_get_mapping fileStore d t = some m →
      m ∈ fileStore ∧ m.device_id = d ∧ m.trigger_type = t) := by
  refine ⟨?_, ?_, ?_, ?_⟩
  · intro h
    apply List.find?_eq_none.mpr
    intro m hm
    have := h m hm
    simp only [Bool.and_eq_true, decide_eq_true_eq]
    tauto
  · intro m hm
    have h1 := List.find?_some hm
    have h2 := List.mem_of_find?_eq_some hm
    simp only [Bool.and_eq_true, decide_eq_true_eq] at h1
    exact ⟨h2, h1.1.1, h1.1.2, h1.2⟩
  · intro h
    apply List.find?_eq_none.mpr
    intro m hm
    have := h m hm
    simp only [Bool.and_eq_true, decide_eq_true_eq]
    tauto
  · intro m hm
    have h1 := List.find?_some hm
    have h2 := List.mem_of_find?_eq_some hm
    simp only [Bool.and_eq_true, decide_eq_true_eq] at h1
    exact ⟨h2, h1.1, h1.2⟩

/-- Enabled database mapping used by the C5 witness. -/
def enabledDbMapping : DbMapping :=
  { id := 7, device_id := "zigbee2mqtt_btn", device_name := "Button",
    trigger_type := "action_single", baby_care_action := "diaper_pee",
    enabled := true }

/-- Witness for the amended C5 theorem on a one-row store. -/
theorem mapping_resolution_witness :
    enabledDbMapping ∈ [enabledDbMapping] ∧
    enabledDbMapping.device_id = "zigbee2mqtt_btn" ∧
    enabledDbMapping.trigger_type = "action_single" ∧
    enabledDbMapping.enabled = true :=
  (mapping_resolution [enabledDbMapping] [] "zigbee2mqtt_btn" "action_single").2.1
    enabledDbMapping rfl

/-! ## Mapping-id assignment -/

/-- Every element of a list is bounded by the `foldl max` over it. -/
theorem le_foldl_max (l : List Nat) :
    ∀ (a : Nat), a ≤ l.foldl max a ∧ ∀ x ∈ l, x ≤ l.foldl max a := by
  induction l with
  | nil => intro a; exact ⟨Nat.le_refl a, by simp⟩
  | cons y t ih =>
    intro a
    have h := ih (max a y)
    refine ⟨le_trans (le_max_left a y) h.1, ?_⟩
    intro x hx
    rcases List.mem_cons.mp hx with rfl | hx2
    · exact le_trans (le_max_right a x) h.1
    · exact h.2 x hx2

/-- C10 counterexample: after adding two mappings (ids 1 and 2), deleting
id 2 and adding again, `_store_mapping` assigns id 2 a second time — the new
id equals a previously assigned (since deleted) id, so ids are not globally
monotonic. -/
theorem store_mapping_id_reuse_cex :
    (store_mapping
        (delete_mapping
          (store_mapping
            (store_mapping [] "d1" "n1" "t1" "a1" "c1").2
            "d2" "n2" "t2" "a2" "c2").2
          2).2
        "d3" "n3" "t3" "a3" "c3").1 = 2 ∧
    (store_mapping (store_mapping [] "d1" "n1" "t1" "a1" "c1").2
        "d2" "n2" "t2" "a2" "c2").1 = 2 := ⟨rfl, rfl⟩

/-- C10 (amended): the id assigned by `_store_mapping` is strictly greater
than — in particular distinct from — the id of every mapping currently in
the store; ids of mappings deleted beforehand may be reused. -/
theorem store_mapping_fresh_id (mappings : List FileMapping)
    (device_id device_name trigger_type baby_care_action now : String)
    (m : FileMapping) (hm : m ∈ mappings) :
    m.id < (store_mapping mappings device_id device_name trigger_type
      baby_care_action now).1 := by
  have hid : (store_mapping mappings device_id device_name trigger_type
      baby_care_action now).1 = (mappings.map (fun x => x.id)).foldl max 0 + 1 := rfl
  rw [hid]
  have h := (le_foldl_max (mappings.map (fun x => x.id)) 0).2 m.id
    (List.mem_map_of_mem _ hm)
  omega

/-- Witness for the amended C10 theorem on a one-entry store. -/
theorem store_mapping_fresh_id_witness :
    disabledMapping ∈ [disabledMapping] ∧
    disabledMapping.id
      < (store_mapping [disabledMapping] "d" "n" "t" "a" "c").1 :=
  ⟨List.mem_cons_self _ _,
    store_mapping_fresh_id [disabledMapping] "d" "n" "t" "a" "c" disabledMapping
      (List.mem_cons_self _ _)⟩

/-! ## Sleep efficiency -/

/-- Evaluation of Python `round(2000/31, 1)`: `64.5`. -/
theorem pyRound1_2000_div_31 : pyRound1 ((2000 : Rat)/31) = 129/2 := by
  have hx : ((2000 : Rat)/31) * 10 = 20000/31 := by norm_num
  have hfloor : ⌊(20000 : Rat)/31⌋ = 645 := by
    rw [Int.floor_eq_iff]
    constructor <;> norm_num
  simp only [pyRound1, hx, hfloor]
  rw [if_pos (by push_cast; norm_num)]
  push_cast
  norm_num

/-- C8 counterexample: a single 10-hour session starting on one calendar
day, queried over a 30-day range, is reported with efficiency 64.5 — the
code divides by the number of distinct days with a session start (here 1),
not by the days in the queried range — whereas the claim's formula
`min(100, total / (daysInRange * 15.5) * 100)` gives `200/93 ≈ 2.15`. -/
theorem sleep_efficiency_range_cex :
    calculate_sleep_efficiency [buildSession 1704139200 1704175200] = 129/2 ∧
    min (100 : Rat) ((10 : Rat) / (30 * 15.5) * 100) = 200/93 ∧
    ((129 : Rat)/2) ≠ 200/93 := by
  refine ⟨?_, ?_, by norm_num⟩
  · have hdays : distinct_start_days [buildSession 1704139200 1704175200] = 1 := by decide
    have hne : ([buildSession 1704139200 1704175200] : List SleepSession) ≠ [] :=
      List.cons_ne_nil _ _
    simp only [calculate_sleep_efficiency, if_neg hne, hdays]
    have htot : (([buildSession 1704139200 1704175200] : List SleepSession).map
        (fun s => s.duration_hours)).sum = 10 := by
      simp [buildSession]
      norm_num
    rw [htot]
    rw [if_pos (by norm_num)]
    have heff : (10 : Rat) / ((1 : Nat) * 15.5) * 100 = 2000/31 := by push_cast; norm_num
    rw [heff, min_eq_left (by norm_num)]
    exact pyRound1_2000_div_31
  · rw [min_eq_right (by norm_num)]
    norm_num

/-- C8 (amended): for a non-empty session set the reported efficiency is
`round(min(100, total / (D * 15.5) * 100), 1)` where `D` is the number of
distinct calendar days on which a session starts (not the number of days in
the queried range); for an empty session set it is 0. -/
theorem sleep_efficiency_formula (sleep_sessions : List SleepSession)
    (h : sleep_sessions ≠ []) :
    calculate_sleep_efficiency sleep_sessions
      = pyRound1 (min
          (((sleep_sessions.map (fun s => s.duration_hours)).sum)
            / (((sleep_sessions.map (fun s => dayOf s.start_time)).toFinset.card : Rat)
              * 15.5) * 100) 100) ∧
    calculate_sleep_efficiency [] = 0 := by
  refine ⟨?_, rfl⟩
  have hcard : (sleep_sessions.map (fun s => dayOf s.start_time)).toFinset.card
      = distinct_start_days sleep_sessions := by
    rw [List.card_toFinset]
    rfl
  have hpos : 1 ≤ distinct_start_days sleep_sessions := by
    unfold distinct_start_days
    have hmap : sleep_sessions.map (fun s => dayOf s.start_time) ≠ [] := by
      simp [List.map_eq_nil_iff, h]
    have hdedup : (sleep_sessions.map (fun s => dayOf s.start_time)).dedup ≠ [] := by
      simpa [List.dedup_eq_nil] using hmap
    exact List.length_pos.mpr hdedup
  have hpos2 : (0 : Rat) < (distinct_start_days sleep_sessions : Rat) * 15.5 := by
    have h1 : (0 : Rat) < (distinct_start_days sleep_sessions : Rat) := by
      exact_mod_cast hpos
    have h2 : (0 : Rat) < (15.5 : Rat) := by norm_num
    exact mul_pos h1 h2
  simp only [calculate_sleep_efficiency, if_neg h, hcard, if_pos hpos2]

/-- Witness for the amended C8 theorem on a concrete one-session list. -/
theorem sleep_efficiency_formula_witness :
    calculate_sleep_efficiency [buildSession 1704139200 1704175200]
      = pyRound1 (min
          ((([buildSession 1704139200 1704175200].map (fun s => s.duration_hours)).sum)
            / ((([buildSession 1704139200 1704175200].map
              (fun s => dayOf s.start_time)).toFinset.card : Rat) * 15.5) * 100) 100) ∧
    calculate_sleep_efficiency [] = 0 :=
  sleep_efficiency_formula [buildSession 1704139200 1704175200] (List.cons_ne_nil _ _)
